import Mathlib

/-!
Verification development for the hono-bun task/category CRUD application.

The application (four near-identical variants: an ORM-backed `src/index.ts`,
a raw-SQL variant in the same file, a JSX variant `src/index.tsx`, and
`src/index_old.ts`) manages two relational tables

  categories(id serial PK, name varchar NOT NULL UNIQUE)
  tasks(id serial PK, title text NOT NULL, done boolean DEFAULT false,
        created_at timestamp DEFAULT now(),
        category_id integer REFERENCES categories(id) ON DELETE SET NULL)

behind an HTTP surface.  This file shallowly embeds the database state, the
storage-layer statements each route executes (including the referential
action `ON DELETE SET NULL` of `tasks_category_id_fkey` and the UNIQUE
constraint `categories_name_key` from `drizzle/0000_confused_turbo.sql`),
JavaScript `parseInt`, and the route handlers, and proves the specified
properties about them.
-/

/-- A row of the `categories` table: `id serial PRIMARY KEY`,
`name varchar(100) NOT NULL` with `UNIQUE("name")`. -/
structure Category where
  id : Int
  name : String
deriving Repr, DecidableEq

/-- A row of the `tasks` table: `id serial PRIMARY KEY`, `title text NOT NULL`,
`done boolean DEFAULT false`, `created_at timestamp DEFAULT now()`,
`category_id integer` nullable, FK to `categories(id) ON DELETE SET NULL`.
Timestamps are modelled as natural numbers. -/
structure TaskRow where
  id : Int
  title : String
  done : Bool
  createdAt : Nat
  categoryId : Option Int
deriving Repr, DecidableEq

/-- The result shape of the task-listing query (`interface Task` in the
source): a task row left-joined with its category name
(`categoryName : string | null`). -/
structure JoinedTask where
  id : Int
  title : String
  done : Bool
  createdAt : Nat
  categoryName : Option String
deriving Repr, DecidableEq

/-- The database state: the two tables plus the `serial` counters that assign
fresh primary keys on insert. -/
structure Store where
  cats : List Category
  tasks : List TaskRow
  nextCatId : Int
  nextTaskId : Int
deriving Repr, DecidableEq

/-- The empty database, as provisioned by `/create-tables`: both tables empty,
serial counters at 1. -/
def initStore : Store := ⟨[], [], 1, 1⟩

/-- An HTTP response produced by a route handler: `c.redirect` (302),
`c.text(msg, 400)`, `c.text(msg, 500)`, or `c.html` (200). -/
inductive Response where
  | redirect (loc : String)
  | clientError (msg : String)
  | serverError (msg : String)
  | html (body : String)
deriving Repr, DecidableEq

/-- The numeric HTTP status of a response. -/
def Response.status : Response → Nat
  | .redirect _ => 302
  | .clientError _ => 400
  | .serverError _ => 500
  | .html _ => 200

/-! ## JavaScript `parseInt(s, 10)`

Every `:id` route handler converts the path segment with `parseInt(id, 10)`:
leading whitespace is skipped, an optional sign is read, then the longest
leading run of decimal digits; if that run is empty the result is `NaN`,
modelled here as `none`. -/

/-- Accumulate a list of decimal digit characters into a natural number. -/
def digitsToNat : List Char → Nat → Nat
  | [], acc => acc
  | c :: cs, acc => digitsToNat cs (acc * 10 + (c.toNat - 48))

/-- Parse the longest leading digit run of `cs`; `none` (NaN) if it is empty. -/
def parseIntFrom (cs : List Char) (neg : Bool) : Option Int :=
  let ds := cs.takeWhile (fun c => c.isDigit)
  if ds.isEmpty then none
  else
    let n : Nat := digitsToNat ds 0
    some (if neg then -(n : Int) else (n : Int))

/-- JavaScript `parseInt(s, 10)`: `none` models `NaN`. -/
def parseIntJS (s : String) : Option Int :=
  let cs := s.data.dropWhile (fun c => c.isWhitespace)
  match cs with
  | '-' :: rest => parseIntFrom rest true
  | '+' :: rest => parseIntFrom rest false
  | _ => parseIntFrom cs false

/-- Whether a string begins with a decimal digit (the condition used by the
claim about NaN ids). -/
def startsWithDigit (s : String) : Bool :=
  match s.data with
  | [] => false
  | c :: _ => c.isDigit

/-! ## SQL `ORDER BY`, modelled as insertion sort

The listing queries end in `ORDER BY t.created_at DESC` and
`ORDER BY name ASC`.  `orderBy le l` returns the rows of `l` sorted so that
`le` holds pairwise; it is a permutation of `l`. -/

/-- Insert `a` into `l` before the first element `b` with `le a b`. -/
def insertSorted (le : α → α → Bool) (a : α) : List α → List α
  | [] => [a]
  | b :: l => if le a b then a :: b :: l else b :: insertSorted le a l

/-- Insertion sort by the boolean relation `le`. -/
def orderBy (le : α → α → Bool) : List α → List α
  | [] => []
  | a :: l => insertSorted le a (orderBy le l)

theorem perm_insertSorted (le : α → α → Bool) (a : α) (l : List α) :
    (insertSorted le a l).Perm (a :: l) := by
  induction l with
  | nil => simp [insertSorted]
  | cons b l ih =>
    simp only [insertSorted]
    by_cases h : le a b
    · simp [h]
    · rw [if_neg h]
      exact (ih.cons b).trans (List.Perm.swap a b l)

theorem perm_orderBy (le : α → α → Bool) (l : List α) : (orderBy le l).Perm l := by
  induction l with
  | nil => simp [orderBy]
  | cons a l ih =>
    exact ((perm_insertSorted le a (orderBy le l)).trans (ih.cons a))

theorem mem_insertSorted (le : α → α → Bool) (a c : α) (l : List α)
    (hc : c ∈ insertSorted le a l) : c = a ∨ c ∈ l :=
  List.mem_cons.mp ((perm_insertSorted le a l).mem_iff.mp hc)

theorem pairwise_insertSorted (le : α → α → Bool)
    (htot : ∀ a b, le a b = true ∨ le b a = true)
    (htrans : ∀ a b c, le a b = true → le b c = true → le a c = true)
    (a : α) (l : List α) (hl : l.Pairwise (fun x y => le x y = true)) :
    (insertSorted le a l).Pairwise (fun x y => le x y = true) := by
  induction l with
  | nil => simp [insertSorted]
  | cons b l ih =>
    rcases List.pairwise_cons.mp hl with ⟨hb, hl'⟩
    simp only [insertSorted]
    by_cases h : le a b
    · rw [if_pos h]
      refine List.pairwise_cons.mpr ⟨?_, hl⟩
      intro c hc
      rcases List.mem_cons.mp hc with rfl | hc
      · exact h
      · exact htrans a b c h (hb c hc)
    · rw [if_neg h]
      refine List.pairwise_cons.mpr ⟨?_, ih hl'⟩
      intro c hc
      rcases mem_insertSorted le a c l hc with hc | hc
      · rcases htot a b with h' | h'
        · exact absurd h' (by simpa using h)
        · simpa [hc] using h'
      · exact hb c hc

theorem pairwise_orderBy (le : α → α → Bool)
    (htot : ∀ a b, le a b = true ∨ le b a = true)
    (htrans : ∀ a b c, le a b = true → le b c = true → le a c = true)
    (l : List α) :
    (orderBy le l).Pairwise (fun x y => le x y = true) := by
  induction l with
  | nil => simp [orderBy]
  | cons a l ih => exact pairwise_insertSorted le htot htrans a (orderBy le l) ih

/-! ## Storage layer

One definition per SQL statement the handlers execute.  Constraint checks
(`categories_name_key` UNIQUE, `tasks_category_id_fkey` FOREIGN KEY) and the
rejection of a `NaN` parameter for an `integer` column are part of these
definitions: they model what PostgreSQL does with the statement, and a
rejected statement leaves the store unchanged (`Except.error`). -/

/-- PostgreSQL error for a `NaN` value sent for an `integer` column. -/
def nanIntErr : String := "invalid input syntax for type integer: \x22NaN\x22"

/-- PostgreSQL error for a violation of `categories_name_key`. -/
def dupNameErr : String :=
  "duplicate key value violates unique constraint \x22categories_name_key\x22"

/-- PostgreSQL error for a violation of `tasks_category_id_fkey`. -/
def fkErr : String :=
  "insert or update on table \x22tasks\x22 violates foreign key constraint \x22tasks_category_id_fkey\x22"

/-- `INSERT INTO categories (name) VALUES (name)`: assigns the next serial id;
the UNIQUE constraint on `name` rejects a duplicate. -/
def insertCategoryDB (s : Store) (name : String) : Except String Store :=
  if s.cats.any (fun c => c.name = name) then .error dupNameErr
  else .ok { s with
    cats := s.cats ++ [⟨s.nextCatId, name⟩],
    nextCatId := s.nextCatId + 1 }

/-- `INSERT INTO tasks (title, category_id) VALUES (title, categoryId)`:
`done` and `created_at` take their column defaults (`false` and `now()`);
a `NaN` category id is rejected by the column type, a non-existent one by
the foreign key. -/
def insertTaskDB (s : Store) (title : String) (categoryId : Option Int)
    (now : Nat) : Except String Store :=
  match categoryId with
  | none => .error nanIntErr
  | some cid =>
    if s.cats.any (fun c => c.id = cid) then
      .ok { s with
        tasks := s.tasks ++ [⟨s.nextTaskId, title, false, now, some cid⟩],
        nextTaskId := s.nextTaskId + 1 }
    else .error fkErr

/-- Effect of `UPDATE tasks SET done = NOT done WHERE id = i` on the rows. -/
def toggleApply (s : Store) (i : Int) : Store :=
  { s with tasks := s.tasks.map (fun t =>
      if t.id = i then { t with done := !t.done } else t) }

/-- `UPDATE tasks SET done = NOT done WHERE id = id`; a `NaN` id is rejected
by the column type. -/
def toggleTaskDB (s : Store) (id : Option Int) : Except String Store :=
  match id with
  | none => .error nanIntErr
  | some i => .ok (toggleApply s i)

/-- Effect of `DELETE FROM tasks WHERE id = i` on the rows. -/
def deleteTaskApply (s : Store) (i : Int) : Store :=
  { s with tasks := s.tasks.filter (fun t => !decide (t.id = i)) }

/-- `DELETE FROM tasks WHERE id = id`; a `NaN` id is rejected by the column
type. -/
def deleteTaskDB (s : Store) (id : Option Int) : Except String Store :=
  match id with
  | none => .error nanIntErr
  | some i => .ok (deleteTaskApply s i)

/-- Effect of `DELETE FROM categories WHERE id = i`: the row is removed and,
by `tasks_category_id_fkey ... ON DELETE SET NULL`, every task whose
`category_id` references it has that reference set to null. -/
def deleteCategoryApply (s : Store) (i : Int) : Store :=
  { s with
    cats := s.cats.filter (fun c => !decide (c.id = i)),
    tasks := s.tasks.map (fun t =>
      if t.categoryId = some i then { t with categoryId := none } else t) }

/-- `DELETE FROM categories WHERE id = id`; a `NaN` id is rejected by the
column type. -/
def deleteCategoryDB (s : Store) (id : Option Int) : Except String Store :=
  match id with
  | none => .error nanIntErr
  | some i => .ok (deleteCategoryApply s i)

/-! ## The listing queries -/

/-- Comparison used by `ORDER BY t.created_at DESC`. -/
def taskDescLe (a b : TaskRow) : Bool := decide (b.createdAt ≤ a.createdAt)

/-- Comparison used by `ORDER BY name ASC`. -/
def catNameLe (a b : Category) : Bool := decide (a.name ≤ b.name)

/-- `LEFT JOIN categories c ON t.category_id = c.id`, projected to
`c.name as category_name`: a null `category_id`, or one matching no
category row, joins to a null name. -/
def leftJoinName (cats : List Category) (t : TaskRow) : JoinedTask :=
  { id := t.id, title := t.title, done := t.done, createdAt := t.createdAt,
    categoryName :=
      match t.categoryId with
      | none => none
      | some cid => (cats.find? (fun c => decide (c.id = cid))).map (fun c => c.name) }

/-- `SELECT t.id, t.title, t.done, t.created_at, c.name FROM tasks t
LEFT JOIN categories c ON t.category_id = c.id ORDER BY t.created_at DESC`. -/
def tasksQuery (s : Store) : List JoinedTask :=
  (orderBy taskDescLe s.tasks).map (leftJoinName s.cats)

/-- `SELECT id, name FROM categories ORDER BY name ASC`. -/
def categoriesQuery (s : Store) : List Category := orderBy catNameLe s.cats

/-! ## The fetch helpers

Each of the four variants defines `fetchTasks` and `fetchCategories` with a
`try`/`catch` that logs and returns `[]` on any storage failure.  The
argument models the outcome of the database round trip: `.ok s` is a
successful read of state `s`, `.error e` a failure `e`. -/

/-- `fetchTasks` of the ORM variant (`src/index.ts`). -/
def fetchTasks (db : Except String Store) : List JoinedTask :=
  match db with
  | .ok s => tasksQuery s
  | .error _ => []

/-- `fetchCategories` of the ORM variant (`src/index.ts`). -/
def fetchCategories (db : Except String Store) : List Category :=
  match db with
  | .ok s => categoriesQuery s
  | .error _ => []

/-- `fetchTasks` of the raw-SQL variant (second part of `src/index.ts`). -/
def fetchTasksRawSql (db : Except String Store) : List JoinedTask :=
  match db with
  | .ok s => tasksQuery s
  | .error _ => []

/-- `fetchCategories` of the raw-SQL variant (second part of `src/index.ts`). -/
def fetchCategoriesRawSql (db : Except String Store) : List Category :=
  match db with
  | .ok s => categoriesQuery s
  | .error _ => []

/-- `fetchTasks` of the JSX variant (`src/index.tsx`). -/
def fetchTasksJsx (db : Except String Store) : List JoinedTask :=
  match db with
  | .ok s => tasksQuery s
  | .error _ => []

/-- `fetchCategories` of the JSX variant (`src/index.tsx`). -/
def fetchCategoriesJsx (db : Except String Store) : List Category :=
  match db with
  | .ok s => categoriesQuery s
  | .error _ => []

/-- `fetchTasks` of `src/index_old.ts`. -/
def fetchTasksOld (db : Except String Store) : List JoinedTask :=
  match db with
  | .ok s => tasksQuery s
  | .error _ => []

/-- `fetchCategories` of `src/index_old.ts`. -/
def fetchCategoriesOld (db : Except String Store) : List Category :=
  match db with
  | .ok s => categoriesQuery s
  | .error _ => []

/-- `checkTablesExist` (raw-SQL variants): queries `information_schema` and
returns `false` on a storage failure. -/
def checkTablesExist (db : Except String Bool) : Bool :=
  match db with
  | .ok b => b
  | .error _ => false

/-! ## HTML rendering (ORM variant, `src/index.ts`)

`new Date(createdAt).toLocaleString()` is locale dependent; it is modelled by
an arbitrary formatting function `fmtDate`.  Field values are spliced into
the template literals verbatim, exactly as in the source. -/

/-- `renderTaskRow`: the `<tr>` template literal for one task. -/
def renderTaskRow (fmtDate : Nat → String) (task : JoinedTask) : String :=
  "\n    <tr>\n      <td style=\"padding: 8px;\">" ++ toString task.id ++
  "</td>\n      <td style=\"padding: 8px;\">" ++ task.title ++
  "</td>\n      <td style=\"padding: 8px;\">\n        <form action=\"/tasks/" ++
  toString task.id ++
  "/toggle\" method=\"POST\" style=\"margin: 0;\">\n          <input\n            type=\"checkbox\"\n            " ++
  (if task.done then "checked" else "") ++
  "\n            onchange=\"this.form.submit()\"\n          >\n        </form>\n      </td>\n      <td style=\"padding: 8px;\">" ++
  (match task.categoryName with
   | none => "-"
   | some n => if n = "" then "-" else n) ++
  "</td>\n      <td style=\"padding: 8px;\">" ++ fmtDate task.createdAt ++
  "</td>\n      <td style=\"padding: 8px;\">\n        <form action=\"/tasks/" ++
  toString task.id ++
  "/delete\" method=\"POST\" style=\"margin: 0;\">\n          <button type=\"submit\" onclick=\"return confirm(\x27Are you sure you want to delete this task?\x27)\">Delete</button>\n        </form>\n      </td>\n    </tr>\n  "

/-- `renderCategoryRow`: the `<tr>` template literal for one category. -/
def renderCategoryRow (category : Category) : String :=
  "\n    <tr>\n      <td style=\"padding: 8px;\">" ++ toString category.id ++
  "</td>\n      <td style=\"padding: 8px;\">" ++ category.name ++
  "</td>\n      <td style=\"padding: 8px;\">\n        <form action=\"/categories/" ++
  toString category.id ++
  "/delete\" method=\"POST\" style=\"margin: 0;\">\n          <button type=\"submit\" onclick=\"return confirm(\x27Are you sure? This will also remove the category from all tasks.\x27)\">Delete</button>\n        </form>\n      </td>\n    </tr>\n  "

/-- `renderCategoryOptions`: the `<option>` list for the task form dropdown. -/
def renderCategoryOptions (categories : List Category) : String :=
  String.join (categories.map (fun category =>
    "<option value=\"" ++ toString category.id ++ "\">" ++ category.name ++ "</option>"))

/-- `renderCategoriesTable`: category creation form plus the category rows
(or the `No categories found` placeholder row). -/
def renderCategoriesTable (categories : List Category) : String :=
  let rows :=
    if categories.length = 0 then
      "<tr><td colspan=\"3\" style=\"padding: 8px; text-align: center;\">No categories found</td></tr>"
    else String.join (categories.map renderCategoryRow)
  "\n    <div class=\"categories-table\">\n      <h2>Categories</h2>\n      <form action=\"/categories\" method=\"POST\">" ++
  "<input type=\"text\" name=\"name\" placeholder=\"Category name\" required><button type=\"submit\">Add Category</button></form>\n      <table border=\"1\">" ++
  "<thead><tr><th>ID</th><th>Name</th><th>Actions</th></tr></thead>\n        <tbody>\n          " ++
  rows ++
  "\n        </tbody>\n      </table>\n    </div>\n  "

/-- `renderTasksTable`: task creation form (with the category dropdown) plus
the task rows (or the `No tasks found` placeholder row). -/
def renderTasksTable (fmtDate : Nat → String) (tasks : List JoinedTask)
    (categories : List Category) : String :=
  let rows :=
    if tasks.length = 0 then
      "<tr><td colspan=\"6\" style=\"padding: 8px; text-align: center;\">No tasks found</td></tr>"
    else String.join (tasks.map (renderTaskRow fmtDate))
  let categoryOptions := renderCategoryOptions categories
  "\n    <div class=\"tasks-table\">\n      <h2>Tasks</h2>\n      <form action=\"/tasks\" method=\"POST\">" ++
  "<input type=\"text\" name=\"title\" placeholder=\"Task title\" required>" ++
  "<select name=\"category_id\" required><option value=\"\">Select a category</option>" ++
  categoryOptions ++
  "</select><button type=\"submit\">Add Task</button></form>\n      <table border=\"1\">" ++
  "<thead><tr><th>ID</th><th>Title</th><th>Status</th><th>Category</th><th>Created At</th><th>Actions</th></tr></thead>\n        <tbody>\n          " ++
  rows ++
  "\n        </tbody>\n      </table>\n    </div>\n  "

/-! ## Route handlers (ORM variant, `src/index.ts`)

Form fields arrive as `Option String` (`formData.get` returns the field or
null; the `File` case also fails the `typeof` check and is subsumed by
`none`).  Every handler body is wrapped in `try`/`catch`: a storage error is
caught and answered with a 500 whose text prepends the route's message, with
the store unchanged (the single statement was rejected atomically). -/

/-- `GET /`: fetches tasks and categories (two independent reads) and renders
the page. -/
def getHome (fmtDate : Nat → String) (tasksDb catsDb : Except String Store) :
    Response :=
  let ts := fetchTasks tasksDb
  let cs := fetchCategories catsDb
  .html ("\n    <div style=\"display: flex; gap: 40px;\">\n      " ++
    renderCategoriesTable cs ++ "\n      " ++
    renderTasksTable fmtDate ts cs ++ "\n    </div>\n  ")

/-- `GET /` of the raw-SQL variants: if the table-existence probe fails or
reports missing tables, only the create-tables form is rendered; either way
the response is a 200 page. -/
def getHomeRaw (fmtDate : Nat → String) (tablesDb : Except String Bool)
    (tasksDb catsDb : Except String Store) : Response :=
  if checkTablesExist tablesDb then
    .html ("\n    <div>\n      <form action=\"/delete-tables\" method=\"POST\"><button type=\"submit\">Delete tables</button></form>\n      <div style=\"display: flex; gap: 40px;\">" ++
      renderCategoriesTable (fetchCategoriesRawSql catsDb) ++
      renderTasksTable fmtDate (fetchTasksRawSql tasksDb) (fetchCategoriesRawSql catsDb) ++
      "</div>\n    </div>\n  ")
  else
    .html ("\n      <div>\n        <form action=\"/create-tables\" method=\"POST\">\n          <button type=\"submit\">Create tables</button>\n        </form>\n      </div>\n    ")

/-- `POST /categories`: 400 if `name` is missing or empty (JS falsiness),
otherwise one INSERT; on a storage error, 500 with the error message. -/
def createCategoryHandler (s : Store) (name : Option String) :
    Response × Store :=
  match name with
  | none => (.clientError ("Category name is required"), s)
  | some n =>
    if n = "" then (.clientError ("Category name is required"), s)
    else
      match insertCategoryDB s n with
      | .ok s' => (.redirect ("/"), s')
      | .error e => (.serverError ("Error creating category: " ++ e), s)

/-- `POST /tasks`: 400 if `title` or `category_id` is missing or empty,
otherwise one INSERT with `parseInt(categoryId, 10)`; on a storage error,
500 with the error message. -/
def createTaskHandler (s : Store) (title categoryId : Option String)
    (now : Nat) : Response × Store :=
  match title with
  | none => (.clientError ("Task title is required"), s)
  | some t =>
    if t = "" then (.clientError ("Task title is required"), s)
    else
      match categoryId with
      | none => (.clientError ("Category selection is required"), s)
      | some cid =>
        if cid = "" then (.clientError ("Category selection is required"), s)
        else
          match insertTaskDB s t (parseIntJS cid) now with
          | .ok s' => (.redirect ("/"), s')
          | .error e => (.serverError ("Error creating task: " ++ e), s)

/-- `POST /tasks/:id/toggle`: one UPDATE with `parseInt(taskId, 10)`; on a
storage error, 500 with the error message. -/
def toggleTaskHandler (s : Store) (idParam : String) : Response × Store :=
  match toggleTaskDB s (parseIntJS idParam) with
  | .ok s' => (.redirect ("/"), s')
  | .error e => (.serverError ("Error toggling task status: " ++ e), s)

/-- `POST /tasks/:id/delete`: one DELETE with `parseInt(taskId, 10)`; on a
storage error, 500 with the error message. -/
def deleteTaskHandler (s : Store) (idParam : String) : Response × Store :=
  match deleteTaskDB s (parseIntJS idParam) with
  | .ok s' => (.redirect ("/"), s')
  | .error e => (.serverError ("Error deleting task: " ++ e), s)

/-- `POST /categories/:id/delete`: one DELETE with
`parseInt(categoryId, 10)`; on a storage error, 500 with the error
message. -/
def deleteCategoryHandler (s : Store) (idParam : String) : Response × Store :=
  match deleteCategoryDB s (parseIntJS idParam) with
  | .ok s' => (.redirect ("/"), s')
  | .error e => (.serverError ("Error deleting category: " ++ e), s)

/-! ## Mutation requests and reachable states -/

/-- One mutating HTTP request to the CRUD surface, with its inputs. -/
inductive Op where
  | createCategory (name : Option String)
  | createTask (title categoryId : Option String) (now : Nat)
  | toggleTask (idParam : String)
  | deleteTask (idParam : String)
  | deleteCategory (idParam : String)
deriving Repr, DecidableEq

/-- Dispatch one request to its handler. -/
def applyOp (s : Store) : Op → Response × Store
  | .createCategory name => createCategoryHandler s name
  | .createTask title categoryId now => createTaskHandler s title categoryId now
  | .toggleTask idParam => toggleTaskHandler s idParam
  | .deleteTask idParam => deleteTaskHandler s idParam
  | .deleteCategory idParam => deleteCategoryHandler s idParam

/-- Run a sequence of requests from a starting state, keeping the final
store. -/
def runOps (s : Store) (ops : List Op) : Store :=
  ops.foldl (fun s op => (applyOp s op).2) s

/-! ## The storage statements each write endpoint executes -/

/-- One SQL statement appearing in a write handler's body. -/
inductive Stmt where
  | insertCategories
  | insertTasks
  | updateTasksDone
  | deleteFromTasks
  | deleteFromCategories
  | createTableCategories
  | createTableTasks
  | dropTableTasks
  | dropTableCategories
deriving Repr, DecidableEq

/-- Every write endpoint of the HTTP surface (raw-SQL variants included)
paired with the list of storage statements its handler body executes, in
source order. -/
def writeEndpointStmts : List (String × List Stmt) :=
  [("POST /categories", [.insertCategories]),
   ("POST /tasks", [.insertTasks]),
   ("POST /tasks/:id/toggle", [.updateTasksDone]),
   ("POST /tasks/:id/delete", [.deleteFromTasks]),
   ("POST /categories/:id/delete", [.deleteFromCategories]),
   ("POST /create-tables", [.createTableCategories, .createTableTasks]),
   ("POST /delete-tables", [.dropTableTasks, .dropTableCategories])]

/-- The five CRUD write endpoints (present in every variant), with their
statement lists. -/
def crudWriteEndpointStmts : List (String × List Stmt) :=
  [("POST /categories", [.insertCategories]),
   ("POST /tasks", [.insertTasks]),
   ("POST /tasks/:id/toggle", [.updateTasksDone]),
   ("POST /tasks/:id/delete", [.deleteFromTasks]),
   ("POST /categories/:id/delete", [.deleteFromCategories])]

/-! ## Claims -/

/-- C5: a task-creation request whose title form field is missing or blank,
or whose category_id form field is missing or blank, gets a 400 response and
creates no row: the store is unchanged. -/
theorem createTask_blank_rejected (s : Store) (title categoryId : Option String)
    (now : Nat)
    (h : title = none ∨ title = some "" ∨ categoryId = none ∨ categoryId = some "") :
    (createTaskHandler s title categoryId now).1.status = 400 ∧
    (createTaskHandler s title categoryId now).2 = s := by
  unfold createTaskHandler
  rcases h with rfl | rfl | rfl | rfl
  · exact ⟨rfl, rfl⟩
  · simp [Response.status]
  · cases title with
    | none => exact ⟨rfl, rfl⟩
    | some t =>
      by_cases ht : t = "" <;> simp [ht, Response.status]
  · cases title with
    | none => exact ⟨rfl, rfl⟩
    | some t =>
      by_cases ht : t = "" <;> simp [ht, Response.status]

/-- Witness for C5 at a concrete input: an empty title yields a 400 and the
store is untouched. -/
theorem createTask_blank_rejected_witness :
    (createTaskHandler initStore (some "") (some "1") 0).1.status = 400 ∧
    (createTaskHandler initStore (some "") (some "1") 0).2 = initStore :=
  createTask_blank_rejected initStore (some "") (some "1") 0 (Or.inr (Or.inl rfl))

/-- C9 counterexample: the path segment `-1` does not begin with a decimal
digit, yet `parseInt` yields `-1` (not NaN), the statement executes against
no matching row, and both ORM handlers answer with the no-op 302 redirect
rather than a 500. -/
theorem nonDigitStart_not_500_counterexample :
    startsWithDigit "-1" = false ∧
    toggleTaskHandler initStore "-1" = (.redirect ("/"), initStore) ∧
    deleteTaskHandler initStore "-1" = (.redirect ("/"), initStore) := by
  exact ⟨rfl, rfl, rfl⟩

/-- C9 amended: whenever the `:id` path segment parses to NaN under
`parseInt` (no leading digits after optional sign and whitespace), the
ORM-backed toggle and delete handlers pass NaN to the storage layer, which
rejects it for the integer column, so the request surfaces as a 500 error
with the store unchanged. -/
theorem nan_id_surfaces_500 (s : Store) (p : String)
    (hp : parseIntJS p = none) :
    (toggleTaskHandler s p).1.status = 500 ∧ (toggleTaskHandler s p).2 = s ∧
    (deleteTaskHandler s p).1.status = 500 ∧ (deleteTaskHandler s p).2 = s := by
  unfold toggleTaskHandler deleteTaskHandler
  rw [hp]
  exact ⟨rfl, rfl, rfl, rfl⟩

/-- Witness for the amended C9 at a concrete input: `abc` parses to NaN and
both handlers answer 500 leaving the store unchanged. -/
theorem nan_id_surfaces_500_witness :
    (toggleTaskHandler initStore "abc").1.status = 500 ∧
    (toggleTaskHandler initStore "abc").2 = initStore ∧
    (deleteTaskHandler initStore "abc").1.status = 500 ∧
    (deleteTaskHandler initStore "abc").2 = initStore :=
  nan_id_surfaces_500 initStore "abc" rfl

/-- C8 counterexample: not every write endpoint executes exactly one storage
statement: `POST /create-tables` executes two CREATE TABLE statements (and
`POST /delete-tables` two DROP TABLE statements). -/
theorem single_statement_counterexample :
    ¬ (∀ p ∈ writeEndpointStmts, p.2.length = 1) := by
  intro h
  have h2 := h ("POST /create-tables",
    [Stmt.createTableCategories, Stmt.createTableTasks])
    (by simp [writeEndpointStmts])
  simp at h2

/-- C8 amended: each of the five CRUD write endpoints executes exactly one
storage statement, and each of their handlers either succeeds with the 302
redirect or leaves the store exactly as it was (no partial multi-row state
on failure); the table-provisioning endpoints `/create-tables` and
`/delete-tables` are the exception, executing two statements each. -/
theorem crud_writes_single_statement_atomic :
    crudWriteEndpointStmts.all (fun p => p.2.length == 1) = true ∧
    (∀ p ∈ writeEndpointStmts, p.2.length = 1 ∨ p.2.length = 2) ∧
    (∀ s name, (createCategoryHandler s name).2 = s ∨
      (createCategoryHandler s name).1 = .redirect ("/")) ∧
    (∀ s title categoryId now, (createTaskHandler s title categoryId now).2 = s ∨
      (createTaskHandler s title categoryId now).1 = .redirect ("/")) ∧
    (∀ s p, (toggleTaskHandler s p).2 = s ∨
      (toggleTaskHandler s p).1 = .redirect ("/")) ∧
    (∀ s p, (deleteTaskHandler s p).2 = s ∨
      (deleteTaskHandler s p).1 = .redirect ("/")) ∧
    (∀ s p, (deleteCategoryHandler s p).2 = s ∨
      (deleteCategoryHandler s p).1 = .redirect ("/")) := by
  refine ⟨by decide, by decide, ?_, ?_, ?_, ?_, ?_⟩
  · intro s name
    unfold createCategoryHandler
    cases name with
    | none => exact Or.inl rfl
    | some n =>
      by_cases hn : n = ""
      · simp [hn]
      · cases hins : insertCategoryDB s n <;> simp [hn, hins]
  · intro s title categoryId now
    unfold createTaskHandler
    cases title with
    | none => exact Or.inl rfl
    | some t =>
      by_cases ht : t = ""
      · simp [ht]
      · cases categoryId with
        | none => simp [ht]
        | some cid =>
          by_cases hcid : cid = ""
          · simp [ht, hcid]
          · cases hins : insertTaskDB s t (parseIntJS cid) now <;>
              simp [ht, hcid, hins]
  · intro s p
    unfold toggleTaskHandler
    cases h : toggleTaskDB s (parseIntJS p) <;> simp [h]
  · intro s p
    unfold deleteTaskHandler
    cases h : deleteTaskDB s (parseIntJS p) <;> simp [h]
  · intro s p
    unfold deleteCategoryHandler
    cases h : deleteCategoryDB s (parseIntJS p) <;> simp [h]

/-- C7: every variant's fetchTasks and fetchCategories swallow a storage
failure and return the empty collection (none returns no value), and the
page-rendering routes still answer with a 200 HTML page. -/
theorem fetch_failures_swallowed (e : String) (fmtDate : Nat → String)
    (tablesDb : Except String Bool) (tasksDb catsDb : Except String Store) :
    fetchTasks (.error e) = [] ∧ fetchCategories (.error e) = [] ∧
    fetchTasksRawSql (.error e) = [] ∧ fetchCategoriesRawSql (.error e) = [] ∧
    fetchTasksJsx (.error e) = [] ∧ fetchCategoriesJsx (.error e) = [] ∧
    fetchTasksOld (.error e) = [] ∧ fetchCategoriesOld (.error e) = [] ∧
    (getHome fmtDate tasksDb catsDb).status = 200 ∧
    (getHomeRaw fmtDate tablesDb tasksDb catsDb).status = 200 := by
  refine ⟨rfl, rfl, rfl, rfl, rfl, rfl, rfl, rfl, rfl, ?_⟩
  unfold getHomeRaw
  split <;> rfl

/-- C10: the row renderers splice the stored title and name into the HTML
verbatim, with no escaping: the produced markup literally contains the raw
field value as a substring (here exhibited as an explicit decomposition
around it). -/
theorem render_embeds_raw_fields (fmtDate : Nat → String) (task : JoinedTask)
    (category : Category) :
    (∃ a b, renderTaskRow fmtDate task = a ++ task.title ++ b) ∧
    (∃ a b, renderCategoryRow category = a ++ category.name ++ b) := by
  constructor
  · refine ⟨"\n    <tr>\n      <td style=\"padding: 8px;\">" ++ toString task.id ++
      "</td>\n      <td style=\"padding: 8px;\">",
      "</td>\n      <td style=\"padding: 8px;\">\n        <form action=\"/tasks/" ++
      toString task.id ++
      "/toggle\" method=\"POST\" style=\"margin: 0;\">\n          <input\n            type=\"checkbox\"\n            " ++
      (if task.done then "checked" else "") ++
      "\n            onchange=\"this.form.submit()\"\n          >\n        </form>\n      </td>\n      <td style=\"padding: 8px;\">" ++
      (match task.categoryName with
       | none => "-"
       | some n => if n = "" then "-" else n) ++
      "</td>\n      <td style=\"padding: 8px;\">" ++ fmtDate task.createdAt ++
      "</td>\n      <td style=\"padding: 8px;\">\n        <form action=\"/tasks/" ++
      toString task.id ++
      "/delete\" method=\"POST\" style=\"margin: 0;\">\n          <button type=\"submit\" onclick=\"return confirm(\x27Are you sure you want to delete this task?\x27)\">Delete</button>\n        </form>\n      </td>\n    </tr>\n  ", ?_⟩
    simp only [renderTaskRow, String.append_assoc]
  · refine ⟨"\n    <tr>\n      <td style=\"padding: 8px;\">" ++ toString category.id ++
      "</td>\n      <td style=\"padding: 8px;\">",
      "</td>\n      <td style=\"padding: 8px;\">\n        <form action=\"/categories/" ++
      toString category.id ++
      "/delete\" method=\"POST\" style=\"margin: 0;\">\n          <button type=\"submit\" onclick=\"return confirm(\x27Are you sure? This will also remove the category from all tasks.\x27)\">Delete</button>\n        </form>\n      </td>\n    </tr>\n  ", ?_⟩
    simp only [renderCategoryRow, String.append_assoc]

/-- C4: a decimal id that identifies no existing row makes toggle-task,
delete-task and delete-category succeed with a 302 redirect to `/` and leave
the store entirely unchanged.  The foreign-key invariant (every task's
category reference names an existing category) is assumed, as the database
enforces it. -/
theorem nonexistent_id_noop (s : Store) (i : Int) (p : String)
    (hp : parseIntJS p = some i)
    (hfk : ∀ t ∈ s.tasks, t.categoryId = none ∨ ∃ c ∈ s.cats, t.categoryId = some c.id)
    (hcats : ∀ c ∈ s.cats, c.id ≠ i)
    (htasks : ∀ t ∈ s.tasks, t.id ≠ i) :
    toggleTaskHandler s p = (.redirect ("/"), s) ∧
    deleteTaskHandler s p = (.redirect ("/"), s) ∧
    deleteCategoryHandler s p = (.redirect ("/"), s) := by
  have htog : toggleApply s i = s := by
    unfold toggleApply
    have hmap : s.tasks.map (fun t =>
        if t.id = i then { t with done := !t.done } else t) = s.tasks := by
      conv_rhs => rw [← List.map_id s.tasks]
      refine List.map_congr_left ?_
      intro t ht
      simp [htasks t ht]
    rw [hmap]
  have hdel : deleteTaskApply s i = s := by
    unfold deleteTaskApply
    have hfil : s.tasks.filter (fun t => !decide (t.id = i)) = s.tasks := by
      refine List.filter_eq_self.mpr ?_
      intro t ht
      simp [htasks t ht]
    rw [hfil]
  have hdelc : deleteCategoryApply s i = s := by
    unfold deleteCategoryApply
    have hfil : s.cats.filter (fun c => !decide (c.id = i)) = s.cats := by
      refine List.filter_eq_self.mpr ?_
      intro c hc
      simp [hcats c hc]
    have hmap : s.tasks.map (fun t =>
        if t.categoryId = some i then { t with categoryId := none } else t) = s.tasks := by
      conv_rhs => rw [← List.map_id s.tasks]
      refine List.map_congr_left ?_
      intro t ht
      have : t.categoryId ≠ some i := by
        rcases hfk t ht with hnone | ⟨c, hc, hcid⟩
        · simp [hnone]
        · rw [hcid]
          intro hcontra
          exact hcats c hc (by simpa using hcontra)
      simp [this]
    rw [hfil, hmap]
  unfold toggleTaskHandler deleteTaskHandler deleteCategoryHandler
    toggleTaskDB deleteTaskDB deleteCategoryDB
  rw [hp]
  simp [htog, hdel, hdelc]

/-- Witness for C4 at a concrete input: id 99 exists nowhere in a store with
one category and one task, and all three operations are no-op redirects. -/
theorem nonexistent_id_noop_witness :
    toggleTaskHandler ⟨[⟨1, "Work"⟩], [⟨1, "Report", false, 5, some 1⟩], 2, 2⟩ "99" =
      (.redirect ("/"), ⟨[⟨1, "Work"⟩], [⟨1, "Report", false, 5, some 1⟩], 2, 2⟩) ∧
    deleteTaskHandler ⟨[⟨1, "Work"⟩], [⟨1, "Report", false, 5, some 1⟩], 2, 2⟩ "99" =
      (.redirect ("/"), ⟨[⟨1, "Work"⟩], [⟨1, "Report", false, 5, some 1⟩], 2, 2⟩) ∧
    deleteCategoryHandler ⟨[⟨1, "Work"⟩], [⟨1, "Report", false, 5, some 1⟩], 2, 2⟩ "99" =
      (.redirect ("/"), ⟨[⟨1, "Work"⟩], [⟨1, "Report", false, 5, some 1⟩], 2, 2⟩) :=
  nonexistent_id_noop ⟨[⟨1, "Work"⟩], [⟨1, "Report", false, 5, some 1⟩], 2, 2⟩ 99 "99"
    (by decide) (by decide) (by decide) (by decide)

/-- C2: one toggle on a present task's id answers 302 and flips exactly that
task's done flag, leaving its other fields, all other rows, and the
categories table unchanged; a second toggle restores the store exactly. -/
theorem toggle_flips_and_double_toggle_restores (s : Store) (t : TaskRow)
    (p : String)
    (hp : parseIntJS p = some t.id)
    (ht : t ∈ s.tasks) :
    (toggleTaskHandler s p).1 = .redirect ("/") ∧
    { t with done := !t.done } ∈ (toggleTaskHandler s p).2.tasks ∧
    (toggleTaskHandler s p).2.tasks.length = s.tasks.length ∧
    (∀ u ∈ s.tasks, u.id ≠ t.id → u ∈ (toggleTaskHandler s p).2.tasks) ∧
    (toggleTaskHandler s p).2.cats = s.cats ∧
    (toggleTaskHandler (toggleTaskHandler s p).2 p).2 = s := by
  have hred : toggleTaskHandler s p = (.redirect ("/"), toggleApply s t.id) := by
    unfold toggleTaskHandler toggleTaskDB
    rw [hp]
  have hdouble : toggleApply (toggleApply s t.id) t.id = s := by
    cases s with
    | mk cats tasks nca nta =>
      unfold toggleApply
      simp only [List.map_map, Store.mk.injEq]
      refine ⟨trivial, ?_, trivial, trivial⟩
      conv_rhs => rw [← List.map_id tasks]
      refine List.map_congr_left ?_
      intro u _
      by_cases hu : u.id = t.id
      · cases u
        simp_all
      · simp [Function.comp, hu]
  rw [hred]
  refine ⟨rfl, ?_, ?_, ?_, rfl, ?_⟩
  · show { t with done := !t.done } ∈ (toggleApply s t.id).tasks
    exact List.mem_map.mpr ⟨t, ht, by simp⟩
  · exact List.length_map s.tasks _
  · intro u hu hne
    show u ∈ (toggleApply s t.id).tasks
    exact List.mem_map.mpr ⟨u, hu, by simp [hne]⟩
  · have hred2 : toggleTaskHandler (toggleApply s t.id) p =
        (.redirect ("/"), toggleApply (toggleApply s t.id) t.id) := by
      unfold toggleTaskHandler toggleTaskDB
      rw [hp]
    show (toggleTaskHandler (toggleApply s t.id) p).2 = s
    rw [hred2]
    exact hdouble

/-- Witness for C2 at a concrete input: toggling task 1 once flips done to
true, twice restores the store. -/
theorem toggle_flips_witness :
    (toggleTaskHandler ⟨[], [⟨1, "A", false, 0, none⟩], 1, 2⟩ "1").1 = .redirect ("/") ∧
    (⟨1, "A", true, 0, none⟩ : TaskRow) ∈
      (toggleTaskHandler ⟨[], [⟨1, "A", false, 0, none⟩], 1, 2⟩ "1").2.tasks ∧
    (toggleTaskHandler ⟨[], [⟨1, "A", false, 0, none⟩], 1, 2⟩ "1").2.tasks.length =
      ([⟨1, "A", false, 0, none⟩] : List TaskRow).length ∧
    (∀ u ∈ ([⟨1, "A", false, 0, none⟩] : List TaskRow), u.id ≠ (1 : Int) →
      u ∈ (toggleTaskHandler ⟨[], [⟨1, "A", false, 0, none⟩], 1, 2⟩ "1").2.tasks) ∧
    (toggleTaskHandler ⟨[], [⟨1, "A", false, 0, none⟩], 1, 2⟩ "1").2.cats = [] ∧
    (toggleTaskHandler
      (toggleTaskHandler ⟨[], [⟨1, "A", false, 0, none⟩], 1, 2⟩ "1").2 "1").2 =
      ⟨[], [⟨1, "A", false, 0, none⟩], 1, 2⟩ :=
  toggle_flips_and_double_toggle_restores
    ⟨[], [⟨1, "A", false, 0, none⟩], 1, 2⟩ ⟨1, "A", false, 0, none⟩ "1"
    (by decide) (by decide)

theorem filter_out_id_length (i : Int) (l : List Category)
    (hnodup : (l.map Category.id).Nodup) (hi : i ∈ l.map Category.id) :
    (l.filter (fun c => !decide (c.id = i))).length + 1 = l.length := by
  induction l with
  | nil => simp at hi
  | cons a l ih =>
    rw [List.map_cons, List.nodup_cons] at hnodup
    rcases List.mem_cons.mp hi with hia | hil
    · rw [List.filter_cons]
      have hdrop : (!decide (a.id = i)) = false := by simp [hia]
      rw [hdrop]
      simp only [Bool.false_eq_true, if_false]
      have hkeep : l.filter (fun c => !decide (c.id = i)) = l := by
        refine List.filter_eq_self.mpr ?_
        intro c hc
        have hcid : c.id ∈ l.map Category.id := List.mem_map_of_mem Category.id hc
        have : c.id ≠ i := by
          intro heq
          rw [heq, hia] at hcid
          exact hnodup.1 hcid
        simp [this]
      rw [hkeep]
      simp
    · have ha : a.id ≠ i := by
        intro heq
        rw [heq] at hnodup
        exact hnodup.1 hil
      rw [List.filter_cons]
      have hkeep : (!decide (a.id = i)) = true := by simp [ha]
      rw [hkeep]
      simp only [if_true, List.length_cons]
      have := ih hnodup.2 hil
      omega

/-- C1: deleting a present category id answers 302; every task row survives,
those referencing the deleted category have the reference cleared to null
(the others are untouched), and the number of categories drops by exactly
one. -/
theorem deleteCategory_clears_references (s : Store) (c : Int) (p : String)
    (hp : parseIntJS p = some c)
    (hnodup : (s.cats.map Category.id).Nodup)
    (hc : c ∈ s.cats.map Category.id) :
    (deleteCategoryHandler s p).1 = .redirect ("/") ∧
    (deleteCategoryHandler s p).2.tasks =
      s.tasks.map (fun t =>
        if t.categoryId = some c then { t with categoryId := none } else t) ∧
    (deleteCategoryHandler s p).2.tasks.length = s.tasks.length ∧
    (deleteCategoryHandler s p).2.cats.length + 1 = s.cats.length := by
  have hred : deleteCategoryHandler s p = (.redirect ("/"), deleteCategoryApply s c) := by
    unfold deleteCategoryHandler deleteCategoryDB
    rw [hp]
  rw [hred]
  refine ⟨rfl, rfl, ?_, ?_⟩
  · exact List.length_map s.tasks _
  · exact filter_out_id_length c s.cats hnodup hc

/-- Witness for C1 at a concrete input: deleting category 1 keeps all three
tasks, clears the two references to it, and drops the category count from 2
to 1. -/
theorem deleteCategory_clears_references_witness :
    (deleteCategoryHandler
      ⟨[⟨1, "Work"⟩, ⟨2, "Home"⟩],
       [⟨1, "T1", false, 0, some 1⟩, ⟨2, "T2", true, 1, some 1⟩,
        ⟨3, "T3", false, 2, some 2⟩], 3, 4⟩ "1").1 = .redirect ("/") ∧
    (deleteCategoryHandler
      ⟨[⟨1, "Work"⟩, ⟨2, "Home"⟩],
       [⟨1, "T1", false, 0, some 1⟩, ⟨2, "T2", true, 1, some 1⟩,
        ⟨3, "T3", false, 2, some 2⟩], 3, 4⟩ "1").2.tasks =
      ([⟨1, "T1", false, 0, some 1⟩, ⟨2, "T2", true, 1, some 1⟩,
        ⟨3, "T3", false, 2, some 2⟩] : List TaskRow).map (fun t =>
        if t.categoryId = some 1 then { t with categoryId := none } else t) ∧
    (deleteCategoryHandler
      ⟨[⟨1, "Work"⟩, ⟨2, "Home"⟩],
       [⟨1, "T1", false, 0, some 1⟩, ⟨2, "T2", true, 1, some 1⟩,
        ⟨3, "T3", false, 2, some 2⟩], 3, 4⟩ "1").2.tasks.length =
      ([⟨1, "T1", false, 0, some 1⟩, ⟨2, "T2", true, 1, some 1⟩,
        ⟨3, "T3", false, 2, some 2⟩] : List TaskRow).length ∧
    (deleteCategoryHandler
      ⟨[⟨1, "Work"⟩, ⟨2, "Home"⟩],
       [⟨1, "T1", false, 0, some 1⟩, ⟨2, "T2", true, 1, some 1⟩,
        ⟨3, "T3", false, 2, some 2⟩], 3, 4⟩ "1").2.cats.length + 1 =
      ([⟨1, "Work"⟩, ⟨2, "Home"⟩] : List Category).length :=
  deleteCategory_clears_references
    ⟨[⟨1, "Work"⟩, ⟨2, "Home"⟩],
     [⟨1, "T1", false, 0, some 1⟩, ⟨2, "T2", true, 1, some 1⟩,
      ⟨3, "T3", false, 2, some 2⟩], 3, 4⟩ 1 "1"
    (by decide) (by decide) (by decide)

theorem find_by_id (cats : List Category) (c : Category)
    (hnodup : (cats.map Category.id).Nodup) (hc : c ∈ cats) :
    cats.find? (fun x => decide (x.id = c.id)) = some c := by
  induction cats with
  | nil => cases hc
  | cons a l ih =>
    rw [List.map_cons, List.nodup_cons] at hnodup
    rcases List.mem_cons.mp hc with rfl | hmem
    · rw [List.find?_cons_of_pos]
      simp
    · have ha : ¬ (a.id = c.id) := by
        intro h
        have hcid : c.id ∈ l.map Category.id := List.mem_map_of_mem Category.id hmem
        rw [← h] at hcid
        exact hnodup.1 hcid
      rw [List.find?_cons_of_neg]
      · exact ih hnodup.2 hmem
      · simp [ha]

/-- C6: the task listing returns every stored task exactly once (it is a
permutation of the joined rows, one per task), sorted by created_at
descending; each row carries its category's name when the reference names an
existing category, and no name when the task is uncategorized. -/
theorem fetchTasks_lists_all_sorted (s : Store)
    (hnodup : (s.cats.map Category.id).Nodup) :
    (fetchTasks (.ok s)).Perm (s.tasks.map (leftJoinName s.cats)) ∧
    (fetchTasks (.ok s)).Pairwise (fun a b => b.createdAt ≤ a.createdAt) ∧
    (∀ t ∈ s.tasks,
      (leftJoinName s.cats t).id = t.id ∧
      (leftJoinName s.cats t).title = t.title ∧
      (leftJoinName s.cats t).done = t.done ∧
      (leftJoinName s.cats t).createdAt = t.createdAt) ∧
    (∀ t ∈ s.tasks, t.categoryId = none →
      (leftJoinName s.cats t).categoryName = none) ∧
    (∀ t ∈ s.tasks, ∀ c ∈ s.cats, t.categoryId = some c.id →
      (leftJoinName s.cats t).categoryName = some c.name) := by
  have htot : ∀ a b : TaskRow, taskDescLe a b = true ∨ taskDescLe b a = true := by
    intro a b
    unfold taskDescLe
    rcases Nat.le_total b.createdAt a.createdAt with h | h
    · exact Or.inl (by simpa using h)
    · exact Or.inr (by simpa using h)
  have htrans : ∀ a b c : TaskRow,
      taskDescLe a b = true → taskDescLe b c = true → taskDescLe a c = true := by
    intro a b c h1 h2
    unfold taskDescLe at *
    have h1 := of_decide_eq_true h1
    have h2 := of_decide_eq_true h2
    exact decide_eq_true (Nat.le_trans h2 h1)
  refine ⟨?_, ?_, ?_, ?_, ?_⟩
  · show ((orderBy taskDescLe s.tasks).map (leftJoinName s.cats)).Perm _
    exact (perm_orderBy taskDescLe s.tasks).map _
  · show ((orderBy taskDescLe s.tasks).map (leftJoinName s.cats)).Pairwise _
    refine List.pairwise_map.mpr ?_
    refine (pairwise_orderBy taskDescLe htot htrans s.tasks).imp ?_
    intro a b hab
    have := of_decide_eq_true hab
    exact this
  · intro t ht
    exact ⟨rfl, rfl, rfl, rfl⟩
  · intro t ht h
    simp [leftJoinName, h]
  · intro t ht c hcmem h
    have hfind := find_by_id s.cats c hnodup hcmem
    simp [leftJoinName, h, hfind]

/-- Witness for C6 at a concrete input: two categories, three tasks inserted
out of creation order; the listing is sorted newest first, tasks 1 and 3
carry their category names, task 2 is uncategorized. -/
theorem fetchTasks_lists_all_sorted_witness :
    (fetchTasks (.ok ⟨[⟨1, "Work"⟩, ⟨2, "Home"⟩],
      [⟨1, "T1", false, 5, some 1⟩, ⟨2, "T2", true, 9, none⟩,
       ⟨3, "T3", false, 7, some 2⟩], 3, 4⟩)).Perm
      (([⟨1, "T1", false, 5, some 1⟩, ⟨2, "T2", true, 9, none⟩,
        ⟨3, "T3", false, 7, some 2⟩] : List TaskRow).map
        (leftJoinName [⟨1, "Work"⟩, ⟨2, "Home"⟩])) ∧
    (fetchTasks (.ok ⟨[⟨1, "Work"⟩, ⟨2, "Home"⟩],
      [⟨1, "T1", false, 5, some 1⟩, ⟨2, "T2", true, 9, none⟩,
       ⟨3, "T3", false, 7, some 2⟩], 3, 4⟩)).Pairwise
      (fun a b => b.createdAt ≤ a.createdAt) ∧
    (∀ t ∈ ([⟨1, "T1", false, 5, some 1⟩, ⟨2, "T2", true, 9, none⟩,
       ⟨3, "T3", false, 7, some 2⟩] : List TaskRow),
      (leftJoinName [⟨1, "Work"⟩, ⟨2, "Home"⟩] t).id = t.id ∧
      (leftJoinName [⟨1, "Work"⟩, ⟨2, "Home"⟩] t).title = t.title ∧
      (leftJoinName [⟨1, "Work"⟩, ⟨2, "Home"⟩] t).done = t.done ∧
      (leftJoinName [⟨1, "Work"⟩, ⟨2, "Home"⟩] t).createdAt = t.createdAt) ∧
    (∀ t ∈ ([⟨1, "T1", false, 5, some 1⟩, ⟨2, "T2", true, 9, none⟩,
       ⟨3, "T3", false, 7, some 2⟩] : List TaskRow), t.categoryId = none →
      (leftJoinName [⟨1, "Work"⟩, ⟨2, "Home"⟩] t).categoryName = none) ∧
    (∀ t ∈ ([⟨1, "T1", false, 5, some 1⟩, ⟨2, "T2", true, 9, none⟩,
       ⟨3, "T3", false, 7, some 2⟩] : List TaskRow),
      ∀ c ∈ ([⟨1, "Work"⟩, ⟨2, "Home"⟩] : List Category),
      t.categoryId = some c.id →
      (leftJoinName [⟨1, "Work"⟩, ⟨2, "Home"⟩] t).categoryName = some c.name) :=
  fetchTasks_lists_all_sorted
    ⟨[⟨1, "Work"⟩, ⟨2, "Home"⟩],
     [⟨1, "T1", false, 5, some 1⟩, ⟨2, "T2", true, 9, none⟩,
      ⟨3, "T3", false, 7, some 2⟩], 3, 4⟩ (by decide)

/-- Invariant of reachable stores: category names are pairwise distinct and
never the empty string (the handler rejects an empty name before any insert
reaches the storage layer, and the UNIQUE constraint rejects duplicates). -/
def CatInv (s : Store) : Prop :=
  (s.cats.map Category.name).Nodup ∧ "" ∉ s.cats.map Category.name

theorem catInv_init : CatInv initStore := ⟨List.nodup_nil, by simp [initStore]⟩

theorem insertCategoryDB_ok (s : Store) (n : String) (s' : Store)
    (h : insertCategoryDB s n = .ok s') :
    s.cats.any (fun c => c.name = n) = false ∧
    s'.cats = s.cats ++ [⟨s.nextCatId, n⟩] := by
  unfold insertCategoryDB at h
  by_cases hdup : s.cats.any (fun c => c.name = n)
  · rw [if_pos hdup] at h
    exact Except.noConfusion h
  · rw [if_neg hdup] at h
    injection h with h
    subst h
    exact ⟨by simpa using hdup, rfl⟩

theorem insertTaskDB_cats (s : Store) (t : String) (cid : Option Int)
    (now : Nat) (s' : Store) (h : insertTaskDB s t cid now = .ok s') :
    s'.cats = s.cats := by
  unfold insertTaskDB at h
  cases cid with
  | none => exact Except.noConfusion h
  | some ci =>
    dsimp only at h
    by_cases hfk : s.cats.any (fun c => c.id = ci)
    · rw [if_pos hfk] at h
      injection h with h
      subst h
      rfl
    · rw [if_neg hfk] at h
      exact Except.noConfusion h

theorem catInv_applyOp (s : Store) (op : Op) (h : CatInv s) :
    CatInv (applyOp s op).2 := by
  rcases h with ⟨hnodup, hne⟩
  cases op with
  | createCategory name =>
    show CatInv (createCategoryHandler s name).2
    unfold createCategoryHandler
    cases name with
    | none => exact ⟨hnodup, hne⟩
    | some n =>
      dsimp only
      by_cases hn : n = ""
      · rw [if_pos hn]
        exact ⟨hnodup, hne⟩
      · rw [if_neg hn]
        cases hins : insertCategoryDB s n with
        | ok s' =>
          simp only [hins]
          rcases insertCategoryDB_ok s n s' hins with ⟨hdup, hcats⟩
          refine ⟨?_, ?_⟩
          · rw [hcats, List.map_append, List.nodup_append]
            refine ⟨hnodup, by simp, ?_⟩
            intro x hx hx2
            simp only [List.map_cons, List.map_nil, List.mem_singleton] at hx2
            rcases List.mem_map.mp hx with ⟨c, hc, hcn⟩
            have hdup2 : s.cats.any (fun c => c.name = n) = true :=
              List.any_eq_true.mpr ⟨c, hc, by simp [hcn, hx2]⟩
            rw [hdup2] at hdup
            exact Bool.noConfusion hdup
          · rw [hcats, List.map_append]
            intro hmem
            rcases List.mem_append.mp hmem with hmem | hmem
            · exact hne hmem
            · simp only [List.map_cons, List.map_nil, List.mem_singleton] at hmem
              exact hn hmem.symm
        | error e =>
          simp only [hins]
          exact ⟨hnodup, hne⟩
  | createTask title categoryId now =>
    show CatInv (createTaskHandler s title categoryId now).2
    unfold createTaskHandler
    cases title with
    | none => exact ⟨hnodup, hne⟩
    | some t =>
      dsimp only
      by_cases ht : t = ""
      · rw [if_pos ht]
        exact ⟨hnodup, hne⟩
      · rw [if_neg ht]
        cases categoryId with
        | none => exact ⟨hnodup, hne⟩
        | some cid =>
          dsimp only
          by_cases hcid : cid = ""
          · rw [if_pos hcid]
            exact ⟨hnodup, hne⟩
          · rw [if_neg hcid]
            cases hins : insertTaskDB s t (parseIntJS cid) now with
            | ok s' =>
              simp only [hins]
              have hc := insertTaskDB_cats s t (parseIntJS cid) now s' hins
              refine ⟨?_, ?_⟩
              · show (s'.cats.map Category.name).Nodup
                rw [hc]
                exact hnodup
              · show "" ∉ s'.cats.map Category.name
                rw [hc]
                exact hne
            | error e =>
              simp only [hins]
              exact ⟨hnodup, hne⟩
  | toggleTask p =>
    show CatInv (toggleTaskHandler s p).2
    unfold toggleTaskHandler toggleTaskDB
    cases parseIntJS p with
    | none => exact ⟨hnodup, hne⟩
    | some i => exact ⟨hnodup, hne⟩
  | deleteTask p =>
    show CatInv (deleteTaskHandler s p).2
    unfold deleteTaskHandler deleteTaskDB
    cases parseIntJS p with
    | none => exact ⟨hnodup, hne⟩
    | some i => exact ⟨hnodup, hne⟩
  | deleteCategory p =>
    show CatInv (deleteCategoryHandler s p).2
    unfold deleteCategoryHandler deleteCategoryDB
    cases parseIntJS p with
    | none => exact ⟨hnodup, hne⟩
    | some i =>
      have hsub : ((s.cats.filter (fun c => !decide (c.id = i))).map Category.name).Sublist
          (s.cats.map Category.name) :=
        (List.filter_sublist s.cats).map Category.name
      exact ⟨hsub.nodup hnodup, fun hmem => hne (hsub.subset hmem)⟩

theorem catInv_runOps (ops : List Op) (s : Store) (h : CatInv s) :
    CatInv (runOps s ops) := by
  induction ops generalizing s with
  | nil => exact h
  | cons op ops ih => exact ih (applyOp s op).2 (catInv_applyOp s op h)

/-- C3: in every state reachable from the empty store, category names are
pairwise distinct, the listing shows no name twice, and creating a category
whose name already exists is rejected by the UNIQUE constraint: the handler
answers 500 with the storage error and the store is unchanged. -/
theorem category_names_unique (ops : List Op) (n : String) :
    ((runOps initStore ops).cats.map Category.name).Nodup ∧
    ((fetchCategories (.ok (runOps initStore ops))).map Category.name).Nodup ∧
    (n ∈ (runOps initStore ops).cats.map Category.name →
      createCategoryHandler (runOps initStore ops) (some n) =
        (.serverError ("Error creating category: " ++ dupNameErr),
         runOps initStore ops)) := by
  rcases catInv_runOps ops initStore catInv_init with ⟨hnodup, hne⟩
  refine ⟨hnodup, ?_, ?_⟩
  · have hperm : (categoriesQuery (runOps initStore ops)).Perm
        (runOps initStore ops).cats := perm_orderBy catNameLe _
    exact (hperm.map Category.name).nodup_iff.mpr hnodup
  · intro hmem
    have hn : n ≠ "" := fun h => hne (h ▸ hmem)
    unfold createCategoryHandler
    dsimp only
    rw [if_neg hn]
    have hdup : (runOps initStore ops).cats.any (fun c => c.name = n) = true := by
      rcases List.mem_map.mp hmem with ⟨c, hc, hcn⟩
      exact List.any_eq_true.mpr ⟨c, hc, by simp [hcn]⟩
    unfold insertCategoryDB
    rw [if_pos hdup]

/-- Witness for C3 at a concrete input: after creating the category `Work`,
names are unique, the listing shows it once, and creating `Work` again is a
500 that leaves the store unchanged. -/
theorem category_names_unique_witness :
    ((runOps initStore [Op.createCategory (some "Work")]).cats.map Category.name).Nodup ∧
    ((fetchCategories (.ok (runOps initStore [Op.createCategory (some "Work")]))).map
      Category.name).Nodup ∧
    createCategoryHandler (runOps initStore [Op.createCategory (some "Work")])
      (some "Work") =
      (.serverError ("Error creating category: " ++ dupNameErr),
       runOps initStore [Op.createCategory (some "Work")]) := by
  have h := category_names_unique [Op.createCategory (some "Work")] "Work"
  exact ⟨h.1, h.2.1, h.2.2 (by decide)⟩

/-- Witness for the amended C8 at concrete inputs: the `POST /categories`
endpoint has a one-statement body, and the category-creation handler on a
fresh store either left it unchanged or redirected. -/
theorem crud_writes_single_statement_atomic_witness :
    (([Stmt.insertCategories] : List Stmt).length = 1 ∨
      ([Stmt.insertCategories] : List Stmt).length = 2) ∧
    ((createCategoryHandler initStore (some "Work")).2 = initStore ∨
      (createCategoryHandler initStore (some "Work")).1 = .redirect ("/")) :=
  ⟨crud_writes_single_statement_atomic.2.1
      ("POST /categories", [Stmt.insertCategories]) (by decide),
   crud_writes_single_statement_atomic.2.2.1 initStore (some "Work")⟩
